import Mathlib

/-
Verification of the partial-failure-tolerant analysis and report pipeline
(data_scraper.py / data_analyzer.py / report_generator.py).

The embedding models Python dict/list/str values with the inductive type
`JVal`; the generative backend (`model.generate_content` followed by
`.text`) is a parameter `gen : String → Option String` (`none` models the
call raising), and the standard-library JSON parser (`json.loads`) is a
parameter `parse : String → Option JVal` (`none` models a parse error).
Stateless methods become plain functions; the `datetime.now().isoformat()`
timestamp is passed in as a string parameter.
-/

set_option maxRecDepth 40000

/-- Shallow embedding of the Python values handled by the pipeline:
strings, integers, booleans, None, lists and (insertion-ordered) dicts. -/
inductive JVal where
  | str : String → JVal
  | num : Int → JVal
  | bool : Bool → JVal
  | null : JVal
  | arr : List JVal → JVal
  | obj : List (String × JVal) → JVal
deriving Repr

/-- Python truthiness of an embedded value, as tested by the bare
`if x:` checks in the source (empty strings, zero, False, None, empty lists and
empty dicts are falsy). -/
def JVal.truthy : JVal → Bool
  | .str s => !s.data.isEmpty
  | .num n => n != 0
  | .bool b => b
  | .null => false
  | .arr l => !l.isEmpty
  | .obj l => !l.isEmpty

/-- Whether a value is a Python dict (`isinstance(x, dict)`). -/
def JVal.isObj : JVal → Bool
  | .obj _ => true
  | _ => false

mutual

/-- Python `repr` of a value: containers print their elements with
`repr`, strings are quoted, `True`/`False`/`None` print their names. -/
def pyRepr : JVal → String
  | .str s => "\x27" ++ s ++ "\x27"
  | .num n => toString n
  | .bool b => if b then "True" else "False"
  | .null => "None"
  | .arr l => "[" ++ pyReprList l ++ "]"
  | .obj l => "\x7b" ++ pyReprObj l ++ "\x7d"

/-- Comma-separated `repr` of the elements of a Python list. -/
def pyReprList : List JVal → String
  | [] => ""
  | [v] => pyRepr v
  | v :: vs => pyRepr v ++ ", " ++ pyReprList vs

/-- Comma-separated `repr` of the items of a Python dict. -/
def pyReprObj : List (String × JVal) → String
  | [] => ""
  | [(k, v)] => "\x27" ++ k ++ "\x27: " ++ pyRepr v
  | (k, v) :: kvs => "\x27" ++ k ++ "\x27: " ++ pyRepr v ++ ", " ++ pyReprObj kvs

end

/-- Python `str()` of a value, as interpolated by f-strings: a string is
itself, anything else prints via `repr`. -/
def pyStr : JVal → String
  | .str s => s
  | v => pyRepr v

/-- Python `dict.get(key, default)` on an insertion-ordered dict. -/
def pyGet (d : List (String × JVal)) (k : String) (dflt : JVal) : JVal :=
  (d.lookup k).getD dflt

/-- Python `len()`, raising `TypeError` on values with no length. -/
def pyLen : JVal → Except String Nat
  | .str s => .ok s.length
  | .arr l => .ok l.length
  | .obj l => .ok l.length
  | _ => .error "TypeError: object has no length"

/-- Collect embedded values into a list of strings when all of them are
strings (the success condition of `str.join`). -/
def strList : List JVal → Option (List String)
  | [] => some []
  | .str s :: vs => (strList vs).map (s :: ·)
  | _ :: _ => none

/-- Python `sep.join(x)`: succeeds on an iterable of strings (a list of
strings, a string, or a dict, whose iteration yields its keys), raising
`TypeError` otherwise. -/
def pyJoin (sep : String) : JVal → Except String String
  | .arr l =>
    match strList l with
    | some ss => .ok (String.intercalate sep ss)
    | none => .error "TypeError: sequence item: expected str instance"
  | .str s => .ok (String.intercalate sep (s.data.map String.singleton))
  | .obj l => .ok (String.intercalate sep (l.map Prod.fst))
  | _ => .error "TypeError: can only join an iterable"

/-- Python `x.items()`, raising `AttributeError` on non-dicts. -/
def pyItems : JVal → Except String (List (String × JVal))
  | .obj l => .ok l
  | _ => .error "AttributeError: object has no attribute items"

/-- Python `str.upper()`, character by character. -/
def pyUpper (s : String) : String :=
  String.mk (s.data.map Char.toUpper)

/-- Python `str.lower()`, character by character. -/
def pyLower (s : String) : String :=
  String.mk (s.data.map Char.toLower)

/-- Python `str.replace(old, new)` for a single-character pattern (the
only form the source uses), character by character. -/
def pyReplace (s : String) (c : Char) (rep : String) : String :=
  String.mk (s.data.foldr (fun ch acc => (if ch = c then rep.data else [ch]) ++ acc) [])

/-- Excerpt of the content of one source inside the analysis context
(`DataAnalyzer._prepare_context`, inner loop body): a dict is flattened to
`key: value` lines, anything else is truncated to 500 characters with a
`...` marker. -/
def contentBlock : JVal → String
  | .obj l => l.foldl (fun acc kv => acc ++ kv.1 ++ ": " ++ pyStr kv.2 ++ "\n") ""
  | v => (pyStr v).take 500 ++ "...\n"

/-- Concatenated per-source blocks of `DataAnalyzer._prepare_context`:
each source name upper-cased on its own line, followed by the content
excerpt. -/
def rawContentBlock (items : List (String × JVal)) : String :=
  items.foldl (fun acc kv => acc ++ "\n" ++ pyUpper kv.1 ++ ":\n" ++ contentBlock kv.2) ""

/-- Embedding of `DataAnalyzer._prepare_context`: builds the shared
context string from the scraped-data dict; fails (propagating the Python
exception) when `sources` is not an iterable of strings or `raw_content`
is not a dict. -/
def prepareContext (data : List (String × JVal)) : Except String String :=
  match pyJoin ", " (pyGet data "sources" (.arr [])) with
  | .error e => .error e
  | .ok joined =>
    match pyItems (pyGet data "raw_content" (.obj [])) with
    | .error e => .error e
    | .ok items =>
      .ok ("Analyze the following information:\n\nQuery: "
        ++ pyStr (pyGet data "query" (.str "Unknown"))
        ++ "\nSources: " ++ joined ++ "\n\n" ++ rawContentBlock items)

/-- Prompt of `DataAnalyzer._analyze_financial`. -/
def financialPrompt (context : String) : String :=
  context ++ "\n\nBased on the above information, provide a detailed financial analysis including:\n            - Revenue trends\n            - Profitability metrics\n            - Financial health indicators\n            - Investment potential\n            \n            Format as JSON with keys: revenue, profitability, health, investment_rating"

/-- Prompt of `DataAnalyzer._analyze_history`. -/
def historyPrompt (context : String) : String :=
  context ++ "\n\nProvide a historical analysis including:\n            - Key milestones\n            - Company evolution\n            - Major achievements\n            - Turning points\n            \n            Format as detailed narrative."

/-- Prompt of `DataAnalyzer._analyze_industry`. -/
def industryPrompt (context : String) : String :=
  context ++ "\n\nAnalyze the industry and market including:\n            - Industry trends\n            - Market position\n            - Competitive landscape\n            - Growth opportunities\n            \n            Format as structured analysis."

/-- Prompt of `DataAnalyzer._analyze_swot`. -/
def swotPrompt (context : String) : String :=
  context ++ "\n\nPerform a SWOT analysis providing:\n            - Strengths (at least 3)\n            - Weaknesses (at least 3)\n            - Opportunities (at least 3)\n            - Threats (at least 3)\n            \n            Format as JSON."

/-- Prompt of `DataAnalyzer._analyze_predictions`. -/
def predictionsPrompt (context : String) : String :=
  context ++ "\n\nBased on the analysis, provide:\n            - Future outlook (next 1-3 years)\n            - Key growth drivers\n            - Risk factors\n            - Strategic recommendations\n            \n            Format as structured predictions."

/-- Parse step shared by `_analyze_financial` and `_analyze_swot` (the
inner try/except around `json.loads`): the parse result on success, a
single `summary` field holding the raw text when parsing raises. -/
def structuredParse (parse : String → Option JVal) (text : String) : JVal :=
  match parse text with
  | some v => v
  | none => .obj [("summary", .str text)]

/-- Embedding of `DataAnalyzer._analyze_financial`: on backend failure
returns `none` (Python `None`); on success, tries the JSON parse and
falls back to a single `summary` field when parsing raises. -/
def DataAnalyzer.analyzeFinancial (gen : String → Option String)
    (parse : String → Option JVal) (context : String) : Option JVal :=
  (gen (financialPrompt context)).map (structuredParse parse)

/-- Embedding of `DataAnalyzer._analyze_history`: wraps the raw response
in a `timeline` field, `none` on backend failure. -/
def DataAnalyzer.analyzeHistory (gen : String → Option String)
    (context : String) : Option JVal :=
  (gen (historyPrompt context)).map fun text => .obj [("timeline", .str text)]

/-- Embedding of `DataAnalyzer._analyze_industry`: wraps the raw response
in a `market_analysis` field, `none` on backend failure. -/
def DataAnalyzer.analyzeIndustry (gen : String → Option String)
    (context : String) : Option JVal :=
  (gen (industryPrompt context)).map fun text => .obj [("market_analysis", .str text)]

/-- Embedding of `DataAnalyzer._analyze_swot`: on backend failure returns
`none`; on success, tries the JSON parse and falls back to a single
`summary` field when parsing raises. -/
def DataAnalyzer.analyzeSwot (gen : String → Option String)
    (parse : String → Option JVal) (context : String) : Option JVal :=
  (gen (swotPrompt context)).map (structuredParse parse)

/-- Embedding of `DataAnalyzer._analyze_predictions`: wraps the raw
response in an `outlook` field, `none` on backend failure. -/
def DataAnalyzer.analyzePredictions (gen : String → Option String)
    (context : String) : Option JVal :=
  (gen (predictionsPrompt context)).map fun text => .obj [("outlook", .str text)]

/-- Typed shape of the insight dict built by `DataAnalyzer.analyze`.
`sourcesAnalyzed = none` and `error = none` model the corresponding keys
being absent from the Python dict (as on the catastrophic-failure path,
which sets `error` but no `sources_analyzed`). -/
structure InsightRecord where
  timestamp : String
  query : JVal
  sourcesAnalyzed : Option Nat
  analysis : List (String × JVal)
  error : Option String
deriving Repr

/-- Embedding of `DataAnalyzer._error_insights`: the minimal record
returned when `analyze` catches an exception (note: no
`sources_analyzed` key, `query` defaults to `None`). -/
def DataAnalyzer.errorInsights (data : List (String × JVal)) (err : String)
    (ts : String) : InsightRecord :=
  { timestamp := ts
    query := (data.lookup "query").getD .null
    sourcesAnalyzed := none
    analysis := [("status", .str "Analysis incomplete"),
                 ("message", .str ("Analysis failed: " ++ err))]
    error := some err }

/-- Conditional insertion of one dimension result into the `analysis`
dict, mirroring the guarded insertion into the analysis dict (both `None`
and falsy results are skipped). -/
def storeDim (k : String) (r : Option JVal) : List (String × JVal) :=
  match r with
  | some v => if v.truthy then [(k, v)] else []
  | none => []

/-- Body of the `try:` block of `DataAnalyzer.analyze`: context
preparation and the `sources_analyzed` count may raise; the five
dimension calls are each individually guarded and never raise. -/
def DataAnalyzer.analyzeTry (gen : String → Option String)
    (parse : String → Option JVal) (ts : String)
    (data : List (String × JVal)) : Except String InsightRecord :=
  match prepareContext data with
  | .error e => .error e
  | .ok context =>
    match pyLen (pyGet data "sources" (.arr [])) with
    | .error e => .error e
    | .ok n =>
      .ok { timestamp := ts
            query := pyGet data "query" (.str "Unknown")
            sourcesAnalyzed := some n
            analysis :=
              storeDim "financial" (DataAnalyzer.analyzeFinancial gen parse context)
              ++ storeDim "history" (DataAnalyzer.analyzeHistory gen context)
              ++ storeDim "industry" (DataAnalyzer.analyzeIndustry gen context)
              ++ storeDim "swot" (DataAnalyzer.analyzeSwot gen parse context)
              ++ storeDim "predictions" (DataAnalyzer.analyzePredictions gen context)
            error := none }

/-- Embedding of `DataAnalyzer.analyze`: runs the `try:` body and falls
back to `_error_insights` when it raises. -/
def DataAnalyzer.analyze (gen : String → Option String)
    (parse : String → Option JVal) (ts : String)
    (data : List (String × JVal)) : InsightRecord :=
  match DataAnalyzer.analyzeTry gen parse ts data with
  | .ok r => r
  | .error e => DataAnalyzer.errorInsights data e ts

/-- Typed shape of the dict returned by `DataScraper.scrape`. -/
structure CollectionResult where
  query : String
  timestamp : String
  sources : List String
  rawContent : List (String × JVal)
deriving Repr

/-- The Python dict corresponding to a `CollectionResult`, as handed to
`DataAnalyzer.analyze`. -/
def CollectionResult.toDict (cr : CollectionResult) : List (String × JVal) :=
  [("query", .str cr.query), ("timestamp", .str cr.timestamp),
   ("sources", .arr (cr.sources.map .str)), ("raw_content", .obj cr.rawContent)]

/-- Embedding of `DataScraper._scrape_wikipedia`. The HTTP fetch, status
check and HTML extraction (requests + BeautifulSoup, external
collaborators) are abstracted by `fetch`, returning the joined paragraph
text on success and `none` on any failure, non-200 status or missing
content div; on success the method wraps it with the query as title. -/
def DataScraper.scrapeWikipedia (fetch : String → Option String)
    (q : String) : Option JVal :=
  (fetch q).map fun text => .obj [("title", .str q), ("content", .str text)]

/-- The simulated search-result list built by
`DataScraper._scrape_google_search` in this repository (always
succeeds). -/
def DataScraper.googleSearchResults (q : String) : JVal :=
  .arr [
    .obj [("title", .str (q ++ " - Official Information")),
          ("url", .str ("https://example.com/search?q=" ++ q)),
          ("snippet", .str ("Information about " ++ q ++ " from official sources."))],
    .obj [("title", .str (q ++ " - LinkedIn Profile")),
          ("url", .str ("https://linkedin.com/in/" ++ pyReplace (pyLower q) ' ' "")),
          ("snippet", .str ("Professional details about " ++ q ++ "."))],
    .obj [("title", .str (q ++ " - Recent News")),
          ("url", .str ("https://news.google.com/search?q=" ++ q)),
          ("snippet", .str ("Latest news and updates about " ++ q ++ "."))]]

/-- The simulated company record built by `DataScraper._scrape_company_info`
in this repository (always succeeds). -/
def DataScraper.companyInfo (q : String) : JVal :=
  .obj [("name", .str q), ("founded", .str "Unknown"),
        ("industry", .str "Technology"), ("employees", .str "Unknown"),
        ("revenue", .str "Unknown"),
        ("description", .str ("Company information for " ++ q))]

/-- One guarded source attempt inside `DataScraper.scrape`: on a truthy
result, the display name is appended to `sources` and the content is
stored under the dict key, as a single unit; otherwise (a `None` or falsy
result) neither is touched. -/
def DataScraper.addSource (name key : String) (d : Option JVal)
    (acc : List String × List (String × JVal)) :
    List String × List (String × JVal) :=
  match d with
  | some v => if v.truthy then (acc.1 ++ [name], acc.2 ++ [(key, v)]) else acc
  | none => acc

/-- Embedding of `DataScraper.scrape`, parameterized by the three
per-source collaborators (each returning content or `none`): attempts
Wikipedia, Google Search and the company database in order, recording
each success. -/
def DataScraper.scrape (wikiFetch : String → Option String)
    (googleSearch companyFetch : String → Option JVal)
    (q ts : String) : CollectionResult :=
  let acc := DataScraper.addSource "Wikipedia" "wikipedia"
    (DataScraper.scrapeWikipedia wikiFetch q) ([], [])
  let acc := DataScraper.addSource "Google Search" "google" (googleSearch q) acc
  let acc := DataScraper.addSource "Company Database" "company" (companyFetch q) acc
  { query := q, timestamp := ts, sources := acc.1, rawContent := acc.2 }

/-- `DataScraper.scrape` with the Google-search and company-info stubs
of this repository (which always succeed); only the Wikipedia fetch
remains an external parameter. -/
def DataScraper.scrapeRepo (wikiFetch : String → Option String)
    (q ts : String) : CollectionResult :=
  DataScraper.scrape wikiFetch
    (fun q => some (DataScraper.googleSearchResults q))
    (fun q => some (DataScraper.companyInfo q)) q ts

/-- Embedding of `DataScraper.validate_data`: the three required
top-level keys are present. -/
def DataScraper.validateData (d : List (String × JVal)) : Bool :=
  ["query", "sources", "raw_content"].all fun k => (d.lookup k).isSome

/-- Python `str.title()`: the first letter of every run of letters is
upper-cased, the rest lower-cased. -/
def pyTitle (s : String) : String :=
  (s.data.foldl
    (fun (acc : String × Bool) c =>
      (acc.1.push (if acc.2 then c.toLower else c.toUpper), c.isAlpha))
    ("", false)).1

/-- Python `str.capitalize()`: first character upper-cased, the rest
lower-cased. -/
def pyCapitalize (s : String) : String :=
  match s.data with
  | [] => ""
  | c :: cs => String.mk (c.toUpper :: cs.map Char.toLower)

/-- Embedding of `ReportGenerator._build_header` (template version 1.0;
a missing `sources_analyzed` key renders as 0). -/
def ReportGenerator.buildHeader (q : String) (ins : InsightRecord) : String :=
  "# Research Report: " ++ q ++ "\n\n**Generated:** " ++ ins.timestamp
    ++ "\n**Sources Analyzed:** " ++ toString (ins.sourcesAnalyzed.getD 0)
    ++ "\n**Report Version:** 1.0\n\n---\n\n"

/-- Embedding of `ReportGenerator._build_executive_summary`: notes the
top-level error when the `error` key is present, otherwise a fixed
overview referencing the source count. -/
def ReportGenerator.buildExecutiveSummary (ins : InsightRecord) : String :=
  "## Executive Summary\n\n"
    ++ match ins.error with
       | some e => "*Note: Analysis encountered an issue: " ++ e ++ "*\n\n"
       | none =>
         "This report provides a comprehensive analysis of the subject based on "
           ++ toString (ins.sourcesAnalyzed.getD 0)
           ++ " sources. The analysis includes financial metrics, historical background, industry positioning, SWOT analysis, and future predictions.\n\n"

/-- One `field: value` line of the financial section. -/
def financialLine (kv : String × JVal) : String :=
  "**" ++ pyTitle (pyReplace kv.1 '_' " ") ++ ":** " ++ pyStr kv.2 ++ "\n\n"

/-- Embedding of `ReportGenerator._build_financial_section`: empty when
the dimension is absent or falsy; for a dict, one `field: value` line per
item whose key is not `summary`; for a non-dict, the value itself. -/
def ReportGenerator.buildFinancialSection (ins : InsightRecord) : String :=
  let financial := (ins.analysis.lookup "financial").getD (.obj [])
  if !financial.truthy then "" else
    "## Financial Analysis\n\n"
      ++ match financial with
         | .obj l => l.foldl
             (fun acc kv => if kv.1 = "summary" then acc else acc ++ financialLine kv) ""
         | v => pyStr v ++ "\n\n"

/-- Embedding of `ReportGenerator._build_history_section`: empty when the
dimension is absent or falsy; for a dict, the `timeline` field when
truthy; for a non-dict, the value itself. -/
def ReportGenerator.buildHistorySection (ins : InsightRecord) : String :=
  let history := (ins.analysis.lookup "history").getD (.obj [])
  if !history.truthy then "" else
    "## History & Background\n\n"
      ++ match history with
         | .obj l =>
           let timeline := (l.lookup "timeline").getD (.str "")
           if timeline.truthy then pyStr timeline ++ "\n\n" else ""
         | v => pyStr v ++ "\n\n"

/-- Embedding of `ReportGenerator._build_industry_section`: empty when
the dimension is absent or falsy; for a dict, the `market_analysis` field
when truthy; for a non-dict, the value itself. -/
def ReportGenerator.buildIndustrySection (ins : InsightRecord) : String :=
  let industry := (ins.analysis.lookup "industry").getD (.obj [])
  if !industry.truthy then "" else
    "## Industry & Market Analysis\n\n"
      ++ match industry with
         | .obj l =>
           let market := (l.lookup "market_analysis").getD (.str "")
           if market.truthy then pyStr market ++ "\n\n" else ""
         | v => pyStr v ++ "\n\n"

/-- One category sub-list of the SWOT section: heading plus one `- item`
line per list element (a non-list renders as a single value). -/
def swotCategoryBlock (l : List (String × JVal)) (cat : String) : String :=
  let items := (l.lookup cat).getD (.arr [])
  "### " ++ pyCapitalize cat ++ "\n"
    ++ (match items with
        | .arr xs => xs.foldl (fun acc item => acc ++ "- " ++ pyStr item ++ "\n") ""
        | v => pyStr v ++ "\n")
    ++ "\n"

/-- Embedding of `ReportGenerator._build_swot_section`: empty when the
dimension is absent or falsy; for a dict, the four fixed category
sub-lists; for a non-dict, the value itself. -/
def ReportGenerator.buildSwotSection (ins : InsightRecord) : String :=
  let swot := (ins.analysis.lookup "swot").getD (.obj [])
  if !swot.truthy then "" else
    "## SWOT Analysis\n\n"
      ++ match swot with
         | .obj l =>
           ["strengths", "weaknesses", "opportunities", "threats"].foldl
             (fun acc cat => acc ++ swotCategoryBlock l cat) ""
         | v => pyStr v ++ "\n\n"

/-- Embedding of `ReportGenerator._build_predictions_section`: empty when
the dimension is absent or falsy; for a dict, the `outlook` field when
truthy; for a non-dict, the value itself. -/
def ReportGenerator.buildPredictionsSection (ins : InsightRecord) : String :=
  let predictions := (ins.analysis.lookup "predictions").getD (.obj [])
  if !predictions.truthy then "" else
    "## Future Outlook & Recommendations\n\n"
      ++ match predictions with
         | .obj l =>
           let outlook := (l.lookup "outlook").getD (.str "")
           if outlook.truthy then pyStr outlook ++ "\n\n" else ""
         | v => pyStr v ++ "\n\n"

/-- Embedding of `ReportGenerator._build_footer` (template version 1.0). -/
def ReportGenerator.buildFooter : String :=
  "---\n\n*Report generated by AI Data Scientist Agent v1.0*\n*Using Google Gemini API for intelligent analysis*\n*For more information, visit: https://github.com/Angelsk2207/ai-data-scientist-agent*\n"

/-- Embedding of `ReportGenerator._error_report`. -/
def ReportGenerator.errorReport (q err ts : String) : String :=
  "# Error Report: " ++ q ++ "\n\n**Status:** Analysis Failed\n**Error:** "
    ++ err ++ "\n**Generated:** " ++ ts
    ++ "\n\nThe analysis could not be completed due to the error mentioned above.\nPlease try again or contact support.\n"

/-- Embedding of `ReportGenerator.generate`: the eight report pieces in
fixed order (on well-typed records the builders are total, so the
`except` fall-back to `_error_report` is unreachable). -/
def ReportGenerator.generate (q : String) (ins : InsightRecord) : String :=
  ReportGenerator.buildHeader q ins
    ++ ReportGenerator.buildExecutiveSummary ins
    ++ ReportGenerator.buildFinancialSection ins
    ++ ReportGenerator.buildHistorySection ins
    ++ ReportGenerator.buildIndustrySection ins
    ++ ReportGenerator.buildSwotSection ins
    ++ ReportGenerator.buildPredictionsSection ins
    ++ ReportGenerator.buildFooter

/-- The context string that `_prepare_context` produces on a well-typed
`CollectionResult` dict. -/
def crContext (cr : CollectionResult) : String :=
  "Analyze the following information:\n\nQuery: " ++ cr.query
    ++ "\nSources: " ++ String.intercalate ", " cr.sources ++ "\n\n"
    ++ rawContentBlock cr.rawContent

/-- A backend response text is usable for a structured dimension when a
successful JSON parse of it yields a truthy value (a parse failure is
always usable, via the summary fallback). -/
def usableText (parse : String → Option JVal) (t : String) : Prop :=
  ∀ v, parse t = some v → v.truthy = true

/-- The fixed pairing between the display names appended to `sources`
and the dict keys of `raw_content` in `DataScraper.scrape`. -/
def sourceKey (n : String) : String :=
  if n = "Wikipedia" then "wikipedia"
  else if n = "Google Search" then "google"
  else if n = "Company Database" then "company"
  else n

/-- Replace the value stored under the `swot` key of an `analysis` dict,
leaving every other entry unchanged. -/
def setSwot (l : List (String × JVal)) (v : JVal) : List (String × JVal) :=
  l.map fun kv => if kv.1 = "swot" then (kv.1, v) else kv

/-- Concrete one-source collection result used as a test input. -/
def cr0 : CollectionResult :=
  { query := "Acme", timestamp := "t0", sources := ["Wikipedia"],
    rawContent := [("wikipedia", .obj [("title", .str "Acme"),
                                       ("content", .str "A company.")])] }

/-- Concrete backend for which exactly the financial call fails. -/
def gen0 : String → Option String :=
  fun s => if s = financialPrompt (crContext cr0) then none else some "t"

/-- Concrete JSON parser that fails on every text. -/
def parse0 : String → Option JVal := fun _ => none

/-- Concrete backend for which the swot and financial calls succeed with
distinct non-JSON texts and every other call fails. -/
def gen2 : String → Option String :=
  fun s =>
    if s = swotPrompt (crContext cr0) then some "swot blob"
    else if s = financialPrompt (crContext cr0) then some "fin blob"
    else none

/-- Concrete backend that answers every call with the text `t`. -/
def genT : String → Option String := fun _ => some "t"

/-- Concrete JSON parser for which `t` parses to the empty dict (as
`json.loads` does on a literal empty JSON object). -/
def parseE : String → Option JVal :=
  fun s => if s = "t" then some (.obj []) else none

/-- Concrete backend for which the financial call returns a JSON list
text and every other call fails. -/
def genL : String → Option String :=
  fun s => if s = financialPrompt (crContext cr0) then some "[1]" else none

/-- Concrete JSON parser behaving as `json.loads` on the text `[1]`. -/
def parseL : String → Option JVal :=
  fun s => if s = "[1]" then some (.arr [.num 1]) else none

/-- Concrete insight record whose financial dimension is the
summary-only fallback dict. -/
def insFin0 : InsightRecord :=
  { timestamp := "t0", query := .str "Acme", sourcesAnalyzed := some 1,
    analysis := [("financial", .obj [("summary", .str "the raw financial text")])],
    error := none }

/-- Concrete insight record whose financial dimension holds one real
field next to a summary field. -/
def insFin1 : InsightRecord :=
  { timestamp := "t0", query := .str "Acme", sourcesAnalyzed := some 1,
    analysis := [("financial", .obj [("revenue", .str "growing"),
                                     ("summary", .str "sum")])],
    error := none }

/-- Concrete insight record with an empty analysis dict. -/
def insEmpty0 : InsightRecord :=
  { timestamp := "t0", query := .str "Acme", sourcesAnalyzed := some 0,
    analysis := [], error := none }

/-- Concrete insight record whose swot dimension is the summary-only
fallback dict. -/
def insSwot0 : InsightRecord :=
  { timestamp := "t0", query := .str "Acme", sourcesAnalyzed := some 1,
    analysis := [("swot", .obj [("summary", .str "swot fallback text")])],
    error := none }

theorem strList_map_str (l : List String) : strList (l.map JVal.str) = some l := by
  induction l with
  | nil => rfl
  | cons a t ih => simp [strList, ih]

theorem prepareContext_toDict (cr : CollectionResult) :
    prepareContext cr.toDict = .ok (crContext cr) := by
  have h1 : pyGet cr.toDict "sources" (.arr []) = .arr (cr.sources.map .str) := rfl
  have h2 : pyGet cr.toDict "raw_content" (.obj []) = .obj cr.rawContent := rfl
  have h3 : pyGet cr.toDict "query" (.str "Unknown") = .str cr.query := rfl
  simp only [prepareContext, h1, h2, h3, pyJoin, strList_map_str, pyItems, pyStr, crContext]

theorem pyLen_toDict_sources (cr : CollectionResult) :
    pyLen (pyGet cr.toDict "sources" (.arr [])) = .ok cr.sources.length := by
  show pyLen (.arr (cr.sources.map .str)) = _
  simp [pyLen]

theorem analyze_toDict (gen : String → Option String) (parse : String → Option JVal)
    (ts : String) (cr : CollectionResult) :
    DataAnalyzer.analyze gen parse ts cr.toDict =
      { timestamp := ts, query := .str cr.query,
        sourcesAnalyzed := some cr.sources.length,
        analysis :=
          storeDim "financial" (DataAnalyzer.analyzeFinancial gen parse (crContext cr))
          ++ storeDim "history" (DataAnalyzer.analyzeHistory gen (crContext cr))
          ++ storeDim "industry" (DataAnalyzer.analyzeIndustry gen (crContext cr))
          ++ storeDim "swot" (DataAnalyzer.analyzeSwot gen parse (crContext cr))
          ++ storeDim "predictions" (DataAnalyzer.analyzePredictions gen (crContext cr)),
        error := none } := by
  have h3 : pyGet cr.toDict "query" (.str "Unknown") = .str cr.query := rfl
  simp only [DataAnalyzer.analyze, DataAnalyzer.analyzeTry, prepareContext_toDict,
    pyLen_toDict_sources, h3]

theorem lookup_append_jval (k : String) (l1 l2 : List (String × JVal)) :
    (l1 ++ l2).lookup k = ((l1.lookup k).or (l2.lookup k)) := by
  induction l1 with
  | nil => simp [List.lookup]
  | cons a t ih =>
    rcases a with ⟨a1, a2⟩
    by_cases h : k == a1 <;> simp [List.lookup, h, ih]

theorem lookup_storeDim_ne {k k' : String} (r : Option JVal) (h : ¬ k = k') :
    (storeDim k' r).lookup k = none := by
  cases r with
  | none => rfl
  | some v =>
    unfold storeDim
    split
    · simp [List.lookup, h]
    · rfl

theorem lookup_storeDim_self (k : String) (r : Option JVal) :
    (storeDim k r).lookup k =
      match r with
      | some v => if v.truthy then some v else none
      | none => none := by
  cases r with
  | none => rfl
  | some v =>
    show (if v.truthy then [(k, v)] else []).lookup k =
      if v.truthy then some v else none
    split <;> simp [List.lookup]

theorem truthy_of_mem_storeDim {kv : String × JVal} {k : String} {r : Option JVal}
    (h : kv ∈ storeDim k r) : kv.2.truthy = true := by
  cases r with
  | none => cases h
  | some v =>
    have h' : kv ∈ (if v.truthy then [(k, v)] else []) := h
    split at h'
    · rw [List.mem_singleton] at h'
      subst h'
      assumption
    · cases h'

theorem map_fst_storeDim_structured (k : String) (parse : String → Option JVal)
    (r : Option String) (hu : ∀ t, r = some t → usableText parse t) :
    (storeDim k (r.map (structuredParse parse))).map Prod.fst =
      if r.isSome then [k] else [] := by
  cases r with
  | none => rfl
  | some t =>
    have ht : ∀ v, parse t = some v → v.truthy = true := hu t rfl
    simp only [Option.map_some', storeDim, Option.isSome_some, if_true]
    cases hp : parse t with
    | none => simp [structuredParse, hp, JVal.truthy]
    | some v => simp [structuredParse, hp, ht v hp]

theorem map_fst_storeDim_narrative (k field : String) (r : Option String) :
    (storeDim k (r.map fun text => JVal.obj [(field, .str text)])).map Prod.fst =
      if r.isSome then [k] else [] := by
  cases r <;> simp [storeDim, JVal.truthy]

/-- C6: if an exception occurs in `DataAnalyzer.analyze` outside the
per-dimension loop (the `try:` body fails during context construction or
while counting sources), `analyze` does not propagate it: it returns the
minimal record of `_error_insights`, with `error` set to the failure
message, no `sources_analyzed` key, and `analysis` reduced to a
status/message note — distinct from per-dimension omission. -/
theorem C6_catastrophic_failure_record (gen : String → Option String)
    (parse : String → Option JVal) (ts : String)
    (data : List (String × JVal)) (e : String)
    (h : DataAnalyzer.analyzeTry gen parse ts data = .error e) :
    DataAnalyzer.analyze gen parse ts data =
      { timestamp := ts, query := (data.lookup "query").getD .null,
        sourcesAnalyzed := none,
        analysis := [("status", .str "Analysis incomplete"),
                     ("message", .str ("Analysis failed: " ++ e))],
        error := some e } := by
  simp [DataAnalyzer.analyze, h, DataAnalyzer.errorInsights]

/-- Witness for C6 at a concrete failing input: a data dict whose
`sources` entry is a number, so that the comma join raises during context
construction. -/
theorem C6_witness :
    DataAnalyzer.analyze (fun _ => none) (fun _ => none) "ts"
        [("sources", JVal.num 0)] =
      { timestamp := "ts", query := JVal.null, sourcesAnalyzed := none,
        analysis := [("status", .str "Analysis incomplete"),
                     ("message", .str ("Analysis failed: "
                        ++ "TypeError: can only join an iterable"))],
        error := some "TypeError: can only join an iterable" } :=
  C6_catastrophic_failure_record (fun _ => none) (fun _ => none) "ts"
    [("sources", JVal.num 0)] "TypeError: can only join an iterable" rfl

/-- C10: the record produced by `_error_insights` has no
`sources_analyzed` key (only timestamp, query, error and a status/message
analysis), so the report header built from it renders a source count of
0, regardless of what the input data dict held. -/
theorem C10_error_record_header_zero_sources
    (data : List (String × JVal)) (e ts q : String) :
    (DataAnalyzer.errorInsights data e ts).sourcesAnalyzed = none
    ∧ (DataAnalyzer.errorInsights data e ts).error = some e
    ∧ (DataAnalyzer.errorInsights data e ts).analysis =
        [("status", .str "Analysis incomplete"),
         ("message", .str ("Analysis failed: " ++ e))]
    ∧ ReportGenerator.buildHeader q (DataAnalyzer.errorInsights data e ts) =
        "# Research Report: " ++ q ++ "\n\n**Generated:** " ++ ts
          ++ "\n**Sources Analyzed:** " ++ "0"
          ++ "\n**Report Version:** 1.0\n\n---\n\n" := by
  refine ⟨rfl, rfl, rfl, ?_⟩
  have h0 : toString ((none : Option Nat).getD 0) = "0" := by decide
  simp only [ReportGenerator.buildHeader, DataAnalyzer.errorInsights]
  rw [h0]

/-- C7: `DataScraper.scrape` is total and best-effort: for every query it
returns a well-formed result (carrying the query and passing
`validate_data`), and when every source attempt fails, both `sources` and
`raw_content` are empty. -/
theorem C7_scrape_total_best_effort (wikiFetch : String → Option String)
    (googleSearch companyFetch : String → Option JVal) (q ts : String) :
    (DataScraper.scrape wikiFetch googleSearch companyFetch q ts).query = q
    ∧ DataScraper.validateData
        (DataScraper.scrape wikiFetch googleSearch companyFetch q ts).toDict = true
    ∧ (wikiFetch q = none → googleSearch q = none → companyFetch q = none →
        (DataScraper.scrape wikiFetch googleSearch companyFetch q ts).sources = []
        ∧ (DataScraper.scrape wikiFetch googleSearch companyFetch q ts).rawContent = []) := by
  refine ⟨rfl, rfl, fun hw hg hc => ?_⟩
  simp [DataScraper.scrape, DataScraper.addSource, DataScraper.scrapeWikipedia,
    hw, hg, hc]

/-- Witness for C7: with all three source collaborators failing, the
result is still valid and both `sources` and `raw_content` are empty. -/
theorem C7_witness :
    DataScraper.validateData
      (DataScraper.scrape (fun _ => none) (fun _ => none) (fun _ => none) "q" "t").toDict = true
    ∧ (DataScraper.scrape (fun _ => none) (fun _ => none) (fun _ => none) "q" "t").sources = []
    ∧ (DataScraper.scrape (fun _ => none) (fun _ => none) (fun _ => none) "q" "t").rawContent = [] :=
  ⟨(C7_scrape_total_best_effort (fun _ => none) (fun _ => none) (fun _ => none) "q" "t").2.1,
   ((C7_scrape_total_best_effort (fun _ => none) (fun _ => none) (fun _ => none) "q" "t").2.2
      rfl rfl rfl).1,
   ((C7_scrape_total_best_effort (fun _ => none) (fun _ => none) (fun _ => none) "q" "t").2.2
      rfl rfl rfl).2⟩

/-- C2 as stated is false: the keys of `raw_content` are lower-case short
names while `sources` holds display names, so a key of `raw_content`
(here `google`) never appears in `sources`. Computed on the repository
scraper with only the Wikipedia fetch failing. -/
theorem C2_counterexample :
    "google" ∈ (DataScraper.scrapeRepo (fun _ => none) "Acme" "t0").rawContent.map Prod.fst
    ∧ "google" ∉ (DataScraper.scrapeRepo (fun _ => none) "Acme" "t0").sources := by
  decide

/-- C2 amended: `sources` and `raw_content` are updated in lock-step as a
single unit — under the fixed display-name/key pairing
(Wikipedia/wikipedia, Google Search/google, Company Database/company) the
source list maps exactly onto the `raw_content` key list, and each list
is duplicate-free (so each entry corresponds to exactly one key and vice
versa). -/
theorem C2_amended_lockstep (wikiFetch : String → Option String)
    (googleSearch companyFetch : String → Option JVal) (q ts : String) :
    ((DataScraper.scrape wikiFetch googleSearch companyFetch q ts).sources.map sourceKey
      = (DataScraper.scrape wikiFetch googleSearch companyFetch q ts).rawContent.map Prod.fst)
    ∧ (DataScraper.scrape wikiFetch googleSearch companyFetch q ts).sources.Nodup
    ∧ ((DataScraper.scrape wikiFetch googleSearch companyFetch q ts).rawContent.map Prod.fst).Nodup := by
  unfold DataScraper.scrape
  cases h1 : DataScraper.scrapeWikipedia wikiFetch q <;>
    cases h2 : googleSearch q <;>
      cases h3 : companyFetch q <;>
        simp only [DataScraper.addSource] <;>
          (try split_ifs) <;>
            refine ⟨?_, ?_, ?_⟩ <;>
              simp [sourceKey]

/-- C1: for every collection result and every subset of dimensions whose
backend calls fail (the non-failing structured calls returning usable
text), `DataAnalyzer.analyze` stores exactly the non-failing dimensions
in `analysis`, in the fixed dimension order — one failure never prevents
the remaining dimensions — and `sources_analyzed` equals the length of
the input source list regardless of which dimensions failed. -/
theorem C1_per_dimension_failure_isolation (cr : CollectionResult)
    (gen : String → Option String) (parse : String → Option JVal) (ts : String)
    (rf rh ri rs rp : Option String)
    (hf : gen (financialPrompt (crContext cr)) = rf)
    (hh : gen (historyPrompt (crContext cr)) = rh)
    (hi : gen (industryPrompt (crContext cr)) = ri)
    (hs : gen (swotPrompt (crContext cr)) = rs)
    (hp : gen (predictionsPrompt (crContext cr)) = rp)
    (hfu : ∀ t, rf = some t → usableText parse t)
    (hsu : ∀ t, rs = some t → usableText parse t) :
    (DataAnalyzer.analyze gen parse ts cr.toDict).analysis.map Prod.fst =
      (if rf.isSome then ["financial"] else [])
        ++ (if rh.isSome then ["history"] else [])
        ++ (if ri.isSome then ["industry"] else [])
        ++ (if rs.isSome then ["swot"] else [])
        ++ (if rp.isSome then ["predictions"] else [])
    ∧ (DataAnalyzer.analyze gen parse ts cr.toDict).sourcesAnalyzed =
        some cr.sources.length := by
  rw [analyze_toDict]
  refine ⟨?_, rfl⟩
  simp only [List.map_append]
  simp only [DataAnalyzer.analyzeFinancial, DataAnalyzer.analyzeHistory,
    DataAnalyzer.analyzeIndustry, DataAnalyzer.analyzeSwot,
    DataAnalyzer.analyzePredictions, hf, hh, hi, hs, hp]
  rw [map_fst_storeDim_structured _ _ _ hfu, map_fst_storeDim_structured _ _ _ hsu,
    map_fst_storeDim_narrative, map_fst_storeDim_narrative, map_fst_storeDim_narrative]

/-- Witness for C1 at a concrete input: one collection source, the
financial backend call fails and the other four succeed, so `analysis`
holds exactly the other four dimensions and the source count is 1. -/
theorem C1_witness :
    (DataAnalyzer.analyze gen0 parse0 "t0" cr0.toDict).analysis.map Prod.fst =
      ["history", "industry", "swot", "predictions"]
    ∧ (DataAnalyzer.analyze gen0 parse0 "t0" cr0.toDict).sourcesAnalyzed = some 1 := by
  have h := C1_per_dimension_failure_isolation cr0 gen0 parse0 "t0"
    none (some "t") (some "t") (some "t") (some "t")
    (by decide) (by decide) (by decide) (by decide) (by decide)
    (fun t ht => by cases ht)
    (fun t _ v hv => by simp [parse0] at hv)
  simpa [cr0] using h

/-- C4: when the backend call of a structured dimension (swot or
financial) succeeds but its text does not parse as JSON, the dimension is
stored as the single-field summary fallback rather than omitted; only a
hard backend-call failure omits the dimension entirely. -/
theorem C4_structured_parse_fallback (cr : CollectionResult)
    (gen : String → Option String) (parse : String → Option JVal) (ts : String) :
    (∀ t, gen (swotPrompt (crContext cr)) = some t → parse t = none →
      (DataAnalyzer.analyze gen parse ts cr.toDict).analysis.lookup "swot"
        = some (.obj [("summary", .str t)]))
    ∧ (∀ t, gen (financialPrompt (crContext cr)) = some t → parse t = none →
      (DataAnalyzer.analyze gen parse ts cr.toDict).analysis.lookup "financial"
        = some (.obj [("summary", .str t)]))
    ∧ (gen (swotPrompt (crContext cr)) = none →
      (DataAnalyzer.analyze gen parse ts cr.toDict).analysis.lookup "swot" = none)
    ∧ (gen (financialPrompt (crContext cr)) = none →
      (DataAnalyzer.analyze gen parse ts cr.toDict).analysis.lookup "financial" = none) := by
  refine ⟨?_, ?_, ?_, ?_⟩
  · intro t hg hp
    rw [analyze_toDict]
    simp only [lookup_append_jval]
    rw [lookup_storeDim_ne _ (show ¬"swot" = "financial" by decide),
      lookup_storeDim_ne _ (show ¬"swot" = "history" by decide),
      lookup_storeDim_ne _ (show ¬"swot" = "industry" by decide),
      lookup_storeDim_ne _ (show ¬"swot" = "predictions" by decide),
      lookup_storeDim_self]
    simp only [DataAnalyzer.analyzeSwot, hg, Option.map_some', structuredParse, hp]
    simp [JVal.truthy, Option.or]
  · intro t hg hp
    rw [analyze_toDict]
    simp only [lookup_append_jval]
    rw [lookup_storeDim_ne _ (show ¬"financial" = "history" by decide),
      lookup_storeDim_ne _ (show ¬"financial" = "industry" by decide),
      lookup_storeDim_ne _ (show ¬"financial" = "swot" by decide),
      lookup_storeDim_ne _ (show ¬"financial" = "predictions" by decide),
      lookup_storeDim_self]
    simp only [DataAnalyzer.analyzeFinancial, hg, Option.map_some', structuredParse, hp]
    simp [JVal.truthy, Option.or]
  · intro hg
    rw [analyze_toDict]
    simp only [lookup_append_jval]
    rw [lookup_storeDim_ne _ (show ¬"swot" = "financial" by decide),
      lookup_storeDim_ne _ (show ¬"swot" = "history" by decide),
      lookup_storeDim_ne _ (show ¬"swot" = "industry" by decide),
      lookup_storeDim_ne _ (show ¬"swot" = "predictions" by decide),
      lookup_storeDim_self]
    simp only [DataAnalyzer.analyzeSwot, hg, Option.map_none']
    simp [Option.or]
  · intro hg
    rw [analyze_toDict]
    simp only [lookup_append_jval]
    rw [lookup_storeDim_ne _ (show ¬"financial" = "history" by decide),
      lookup_storeDim_ne _ (show ¬"financial" = "industry" by decide),
      lookup_storeDim_ne _ (show ¬"financial" = "swot" by decide),
      lookup_storeDim_ne _ (show ¬"financial" = "predictions" by decide),
      lookup_storeDim_self]
    simp only [DataAnalyzer.analyzeFinancial, hg, Option.map_none']
    simp [Option.or]

/-- Witness for C4 at a concrete input: the swot and financial calls
return non-JSON texts (the parser fails on everything), the remaining
calls fail; both dimensions are stored as summary fallbacks. -/
theorem C4_witness :
    (DataAnalyzer.analyze gen2 parse0 "t0" cr0.toDict).analysis.lookup "swot"
      = some (.obj [("summary", .str "swot blob")])
    ∧ (DataAnalyzer.analyze gen2 parse0 "t0" cr0.toDict).analysis.lookup "financial"
      = some (.obj [("summary", .str "fin blob")]) :=
  ⟨(C4_structured_parse_fallback cr0 gen2 parse0 "t0").1 "swot blob" (by decide) rfl,
   (C4_structured_parse_fallback cr0 gen2 parse0 "t0").2.1 "fin blob" (by decide) rfl⟩

/-- C8 as stated is false in its consequence: a successful financial call
whose text parses (as `json.loads` does) to a truthy non-dict — here the
JSON list text `[1]` — is stored in `analysis`, so not every stored value
is a mapping. -/
theorem C8_counterexample :
    (DataAnalyzer.analyze genL parseL "t0" cr0.toDict).analysis.lookup "financial"
      = some (.arr [.num 1])
    ∧ (JVal.arr [.num 1]).isObj = false
    ∧ (DataAnalyzer.analyze genL parseL "t0" cr0.toDict).error = none := by
  refine ⟨?_, rfl, ?_⟩ <;> rfl

/-- C8 amended: a successful structured call whose response parses to a
falsy value (such as the empty dict from the JSON text of an empty
object) is omitted from `analysis` exactly as if the call had failed, and
every value stored in `analysis` (on either path) is truthy — non-empty
when it is a mapping — though a truthy non-mapping JSON value can also be
stored. -/
theorem C8_amended_only_truthy_values_stored (gen : String → Option String)
    (parse : String → Option JVal) (ts : String) :
    (∀ (data : List (String × JVal)) (kv : String × JVal),
        kv ∈ (DataAnalyzer.analyze gen parse ts data).analysis → kv.2.truthy = true)
    ∧ (∀ (cr : CollectionResult) (t : String) (v : JVal),
        gen (financialPrompt (crContext cr)) = some t → parse t = some v →
        v.truthy = false →
        (DataAnalyzer.analyze gen parse ts cr.toDict).analysis.lookup "financial"
          = none) := by
  constructor
  · intro data kv hkv
    unfold DataAnalyzer.analyze DataAnalyzer.analyzeTry at hkv
    cases hpc : prepareContext data with
    | error e =>
      rw [hpc] at hkv
      simp only [DataAnalyzer.errorInsights, List.mem_cons, List.mem_singleton,
        List.not_mem_nil, or_false] at hkv
      rcases hkv with rfl | rfl <;> rfl
    | ok c =>
      rw [hpc] at hkv
      cases hpl : pyLen (pyGet data "sources" (.arr [])) with
      | error e =>
        rw [hpl] at hkv
        simp only [DataAnalyzer.errorInsights, List.mem_cons, List.mem_singleton,
          List.not_mem_nil, or_false] at hkv
        rcases hkv with rfl | rfl <;> rfl
      | ok n =>
        rw [hpl] at hkv
        simp only [List.mem_append] at hkv
        rcases hkv with ((((h | h) | h) | h) | h) <;>
          exact truthy_of_mem_storeDim h
  · intro cr t v hg hp hv
    rw [analyze_toDict]
    simp only [lookup_append_jval]
    rw [lookup_storeDim_ne _ (show ¬"financial" = "history" by decide),
      lookup_storeDim_ne _ (show ¬"financial" = "industry" by decide),
      lookup_storeDim_ne _ (show ¬"financial" = "swot" by decide),
      lookup_storeDim_ne _ (show ¬"financial" = "predictions" by decide),
      lookup_storeDim_self]
    simp only [DataAnalyzer.analyzeFinancial, hg, Option.map_some', structuredParse, hp]
    simp [hv, Option.or]

/-- Witness for C8 at concrete inputs: a stored narrative value is
truthy, and a financial response parsing to the empty dict leaves the
financial dimension omitted. -/
theorem C8_witness :
    (JVal.obj [("timeline", JVal.str "t")]).truthy = true
    ∧ (DataAnalyzer.analyze genT parseE "t0" cr0.toDict).analysis.lookup "financial"
        = none :=
  ⟨(C8_amended_only_truthy_values_stored genT parseE "t0").1 cr0.toDict
      ("history", JVal.obj [("timeline", JVal.str "t")]) (by exact List.Mem.head _),
   (C8_amended_only_truthy_values_stored genT parseE "t0").2 cr0 "t" (.obj [])
      rfl rfl rfl⟩

theorem finFoldl_append (l : List (String × JVal)) :
    ∀ s : String, ∃ r : String,
      l.foldl (fun acc kv => if kv.1 = "summary" then acc
                             else acc ++ financialLine kv) s = s ++ r := by
  induction l with
  | nil => exact fun s => ⟨"", (String.append_empty s).symm⟩
  | cons a t ih =>
    intro s
    simp only [List.foldl_cons]
    split
    · exact ih s
    · rcases ih (s ++ financialLine a) with ⟨r, hr⟩
      exact ⟨financialLine a ++ r, by rw [hr, String.append_assoc]⟩

theorem financialLine_infix (l : List (String × JVal)) (kv : String × JVal)
    (hm : kv ∈ l) (hk : ¬ kv.1 = "summary") :
    ∀ s : String, (financialLine kv).data <:+:
      (l.foldl (fun acc kv => if kv.1 = "summary" then acc
                              else acc ++ financialLine kv) s).data := by
  induction l with
  | nil => cases hm
  | cons a t ih =>
    intro s
    simp only [List.foldl_cons]
    rcases List.mem_cons.mp hm with rfl | hm'
    · rw [if_neg hk]
      rcases finFoldl_append t (s ++ financialLine kv) with ⟨r, hr⟩
      rw [hr]
      refine ⟨s.data, r.data, ?_⟩
      simp [String.data_append, List.append_assoc]
    · split
      · exact ih hm' s
      · exact ih hm' (s ++ financialLine a)

/-- C3 as stated is false for a summary-only financial dict: the section
renders only its header and the summary text appears nowhere in it. -/
theorem C3_counterexample :
    ReportGenerator.buildFinancialSection insFin0 = "## Financial Analysis\n\n"
    ∧ ¬ ("the raw financial text".data <:+:
          (ReportGenerator.buildFinancialSection insFin0).data) := by
  constructor
  · rfl
  · decide

/-- C3 amended: the financial section renders one `field: value` line per
non-`summary` field of the dict, and the `summary` field is never
rendered — even when it is the only field, in which case the section is
just its header with no body. -/
theorem C3_amended_summary_field_never_rendered (ins : InsightRecord) :
    (∀ t, ins.analysis.lookup "financial" = some (.obj [("summary", .str t)]) →
      ReportGenerator.buildFinancialSection ins = "## Financial Analysis\n\n")
    ∧ (∀ l kv, ins.analysis.lookup "financial" = some (.obj l) → kv ∈ l →
        ¬ kv.1 = "summary" →
        (financialLine kv).data <:+:
          (ReportGenerator.buildFinancialSection ins).data) := by
  constructor
  · intro t h
    simp only [ReportGenerator.buildFinancialSection, h]
    rfl
  · intro l kv h hm hk
    simp only [ReportGenerator.buildFinancialSection, h, Option.getD_some]
    have hl : (JVal.obj l).truthy = true := by
      cases l with
      | nil => cases hm
      | cons a t => rfl
    rw [hl]
    simp only [Bool.not_true, Bool.false_eq_true, if_false]
    rcases financialLine_infix l kv hm hk "" with ⟨u, w, huw⟩
    refine ⟨"## Financial Analysis\n\n".data ++ u, w, ?_⟩
    rw [String.data_append, ← huw]
    simp [List.append_assoc]

/-- Witness for C3 at concrete inputs: a summary-only financial dict
renders as the bare section header, and a non-summary field of a
financial dict contributes its line to the section. -/
theorem C3_witness :
    ReportGenerator.buildFinancialSection insFin0 = "## Financial Analysis\n\n"
    ∧ (financialLine ("revenue", .str "growing")).data <:+:
        (ReportGenerator.buildFinancialSection insFin1).data :=
  ⟨(C3_amended_summary_field_never_rendered insFin0).1 "the raw financial text" rfl,
   (C3_amended_summary_field_never_rendered insFin1).2
     [("revenue", .str "growing"), ("summary", .str "sum")]
     ("revenue", .str "growing") rfl (List.Mem.head _) (by decide)⟩

/-- C5: each per-dimension section builder returns the empty string when
its dimension is absent from `analysis` or holds a falsy value, and for
an empty `analysis` the whole report is header, executive summary and
footer only, with no per-dimension sections. -/
theorem C5_sections_only_when_present (q : String) (ins : InsightRecord) :
    (((ins.analysis.lookup "financial").getD (.obj [])).truthy = false →
        ReportGenerator.buildFinancialSection ins = "")
    ∧ (((ins.analysis.lookup "history").getD (.obj [])).truthy = false →
        ReportGenerator.buildHistorySection ins = "")
    ∧ (((ins.analysis.lookup "industry").getD (.obj [])).truthy = false →
        ReportGenerator.buildIndustrySection ins = "")
    ∧ (((ins.analysis.lookup "swot").getD (.obj [])).truthy = false →
        ReportGenerator.buildSwotSection ins = "")
    ∧ (((ins.analysis.lookup "predictions").getD (.obj [])).truthy = false →
        ReportGenerator.buildPredictionsSection ins = "")
    ∧ (ins.analysis = [] →
        ReportGenerator.generate q ins =
          ReportGenerator.buildHeader q ins ++ ReportGenerator.buildExecutiveSummary ins
            ++ ReportGenerator.buildFooter) := by
  refine ⟨?_, ?_, ?_, ?_, ?_, ?_⟩
  · intro h; simp [ReportGenerator.buildFinancialSection, h]
  · intro h; simp [ReportGenerator.buildHistorySection, h]
  · intro h; simp [ReportGenerator.buildIndustrySection, h]
  · intro h; simp [ReportGenerator.buildSwotSection, h]
  · intro h; simp [ReportGenerator.buildPredictionsSection, h]
  · intro h
    have hf : ReportGenerator.buildFinancialSection ins = "" := by
      simp [ReportGenerator.buildFinancialSection, h, List.lookup, JVal.truthy]
    have hh : ReportGenerator.buildHistorySection ins = "" := by
      simp [ReportGenerator.buildHistorySection, h, List.lookup, JVal.truthy]
    have hi : ReportGenerator.buildIndustrySection ins = "" := by
      simp [ReportGenerator.buildIndustrySection, h, List.lookup, JVal.truthy]
    have hs : ReportGenerator.buildSwotSection ins = "" := by
      simp [ReportGenerator.buildSwotSection, h, List.lookup, JVal.truthy]
    have hp : ReportGenerator.buildPredictionsSection ins = "" := by
      simp [ReportGenerator.buildPredictionsSection, h, List.lookup, JVal.truthy]
    simp only [ReportGenerator.generate, hf, hh, hi, hs, hp, String.append_empty]

/-- Witness for C5 at a concrete input with an empty analysis dict: the
report is header, summary and footer only, and the financial section is
empty. -/
theorem C5_witness :
    ReportGenerator.generate "Acme" insEmpty0 =
      ReportGenerator.buildHeader "Acme" insEmpty0
        ++ ReportGenerator.buildExecutiveSummary insEmpty0
        ++ ReportGenerator.buildFooter
    ∧ ReportGenerator.buildFinancialSection insEmpty0 = "" :=
  ⟨(C5_sections_only_when_present "Acme" insEmpty0).2.2.2.2.2 rfl,
   (C5_sections_only_when_present "Acme" insEmpty0).1 rfl⟩

theorem buildSwot_summary_only (ins : InsightRecord) (t : String)
    (h : ins.analysis.lookup "swot" = some (.obj [("summary", .str t)])) :
    ReportGenerator.buildSwotSection ins =
      "## SWOT Analysis\n\n### Strengths\n\n### Weaknesses\n\n### Opportunities\n\n### Threats\n\n" := by
  simp only [ReportGenerator.buildSwotSection, h, Option.getD_some]
  rfl

theorem lookup_setSwot_ne (l : List (String × JVal)) (v : JVal) (k : String)
    (hk : ¬ k = "swot") : (setSwot l v).lookup k = l.lookup k := by
  induction l with
  | nil => rfl
  | cons a t ih =>
    show (((if a.1 = "swot" then (a.1, v) else a) :: setSwot t v).lookup k)
      = ((a :: t).lookup k)
    by_cases ha : a.1 = "swot"
    · rw [if_pos ha]
      have hbeq : (k == a.1) = false :=
        beq_eq_false_iff_ne.mpr (fun he => hk (he.trans ha))
      simp [List.lookup, hbeq, ih]
    · rw [if_neg ha]
      cases hbeq : (k == a.1) <;> simp [List.lookup, hbeq, ih]

theorem lookup_setSwot_self (l : List (String × JVal)) (v w : JVal)
    (h : l.lookup "swot" = some w) : (setSwot l v).lookup "swot" = some v := by
  induction l with
  | nil => cases h
  | cons a t ih =>
    show (((if a.1 = "swot" then (a.1, v) else a) :: setSwot t v).lookup "swot")
      = some v
    by_cases ha : a.1 = "swot"
    · rw [if_pos ha]
      simp [List.lookup, ha]
    · rw [if_neg ha]
      have hbeq : ("swot" == a.1) = false :=
        beq_eq_false_iff_ne.mpr (fun he => ha he.symm)
      simp only [List.lookup, hbeq] at h ⊢
      exact ih h

/-- C9: when the swot dimension holds the summary fallback dict, the SWOT
section renders as the four category headings with no items, and the
summary text itself never appears anywhere in the report — the whole
report is unchanged when that text is replaced by the empty string. -/
theorem C9_swot_summary_fallback_rendering (q : String) (ins : InsightRecord)
    (t : String)
    (h : ins.analysis.lookup "swot" = some (.obj [("summary", .str t)])) :
    ReportGenerator.buildSwotSection ins =
      "## SWOT Analysis\n\n### Strengths\n\n### Weaknesses\n\n### Opportunities\n\n### Threats\n\n"
    ∧ ReportGenerator.generate q ins =
        ReportGenerator.generate q
          { ins with analysis := setSwot ins.analysis (.obj [("summary", .str "")]) } := by
  refine ⟨buildSwot_summary_only ins t h, ?_⟩
  have hswot : (setSwot ins.analysis (.obj [("summary", .str "")])).lookup "swot"
      = some (.obj [("summary", .str "")]) := lookup_setSwot_self _ _ _ h
  have h2 : ReportGenerator.buildSwotSection
      { ins with analysis := setSwot ins.analysis (.obj [("summary", .str "")]) } =
      "## SWOT Analysis\n\n### Strengths\n\n### Weaknesses\n\n### Opportunities\n\n### Threats\n\n" :=
    buildSwot_summary_only _ "" hswot
  have hfin : ReportGenerator.buildFinancialSection
      { ins with analysis := setSwot ins.analysis (.obj [("summary", .str "")]) } =
      ReportGenerator.buildFinancialSection ins := by
    simp only [ReportGenerator.buildFinancialSection]
    rw [show ({ ins with analysis := setSwot ins.analysis (.obj [("summary", .str "")]) } :
        InsightRecord).analysis.lookup "financial" = ins.analysis.lookup "financial" from
      lookup_setSwot_ne _ _ _ (by decide)]
  have hhist : ReportGenerator.buildHistorySection
      { ins with analysis := setSwot ins.analysis (.obj [("summary", .str "")]) } =
      ReportGenerator.buildHistorySection ins := by
    simp only [ReportGenerator.buildHistorySection]
    rw [show ({ ins with analysis := setSwot ins.analysis (.obj [("summary", .str "")]) } :
        InsightRecord).analysis.lookup "history" = ins.analysis.lookup "history" from
      lookup_setSwot_ne _ _ _ (by decide)]
  have hind : ReportGenerator.buildIndustrySection
      { ins with analysis := setSwot ins.analysis (.obj [("summary", .str "")]) } =
      ReportGenerator.buildIndustrySection ins := by
    simp only [ReportGenerator.buildIndustrySection]
    rw [show ({ ins with analysis := setSwot ins.analysis (.obj [("summary", .str "")]) } :
        InsightRecord).analysis.lookup "industry" = ins.analysis.lookup "industry" from
      lookup_setSwot_ne _ _ _ (by decide)]
  have hpred : ReportGenerator.buildPredictionsSection
      { ins with analysis := setSwot ins.analysis (.obj [("summary", .str "")]) } =
      ReportGenerator.buildPredictionsSection ins := by
    simp only [ReportGenerator.buildPredictionsSection]
    rw [show ({ ins with analysis := setSwot ins.analysis (.obj [("summary", .str "")]) } :
        InsightRecord).analysis.lookup "predictions" = ins.analysis.lookup "predictions" from
      lookup_setSwot_ne _ _ _ (by decide)]
  simp only [ReportGenerator.generate, buildSwot_summary_only ins t h, h2,
    hfin, hhist, hind, hpred]
  rfl

/-- Witness for C9 at a concrete input: a summary-only swot dict renders
as the four empty category headings. -/
theorem C9_witness :
    ReportGenerator.buildSwotSection insSwot0 =
      "## SWOT Analysis\n\n### Strengths\n\n### Weaknesses\n\n### Opportunities\n\n### Threats\n\n" :=
  (C9_swot_summary_fallback_rendering "Acme" insSwot0 "swot fallback text" rfl).1
